import Mathlib

/-!
Shallow embedding of the patient-records ETL program (src/run.py).

Numeric model: pandas float64 cells are modelled as exact rationals and
null cells as `Option`. Date cells are modelled after parsing: a dob cell
is `Option Int` (days since a fixed epoch), with `none` standing for a
null or unparseable date, which is what pd.to_datetime produces under the
coerce error policy. The wall-clock reference instant datetime.now() is a
rational number of days since the same epoch. The data model of the spec
(section 3) makes patient_id a non-nullable unique key and department a
non-nullable category, so those fields are plain values here; dob and
billing_amount are the nullable fields.
-/

namespace PatientETL

/-- Floor of a rational, computed as numerator over denominator with
Euclidean integer division. -/
def ratFloor (q : ℚ) : ℤ := q.num / q.den

/-- Truncation of a rational toward zero, the semantics of the C style
float to int cast performed by numpy astype(int) on line 99 of run.py. -/
def ratTrunc (q : ℚ) : ℤ := q.num.tdiv q.den

theorem ratFloor_eq_floor (q : ℚ) : ratFloor q = ⌊q⌋ := Rat.floor_def.symm

theorem ratTrunc_eq (q : ℚ) : ratTrunc q = if 0 ≤ q then ⌊q⌋ else ⌈q⌉ := by
  by_cases h : 0 ≤ q
  · rw [if_pos h, ← ratFloor_eq_floor]
    unfold ratTrunc ratFloor
    exact Int.tdiv_eq_ediv (Rat.num_nonneg.mpr h) (Int.ofNat_nonneg q.den)
  · rw [if_neg h]
    have h4 : ¬ 0 ≤ q.num := fun hc => h (Rat.num_nonneg.mp hc)
    have hnum : 0 ≤ -q.num := by omega
    have h2 : (-q.num).tdiv q.den = ⌊-q⌋ := by
      rw [Rat.floor_def, Rat.num_neg_eq_neg_num, Rat.den_neg_eq_den]
      exact Int.tdiv_eq_ediv hnum (Int.ofNat_nonneg q.den)
    have hq : ratTrunc q = -((-q.num).tdiv q.den) := by
      unfold ratTrunc
      rw [Int.neg_tdiv, Int.neg_neg]
    rw [hq, h2, ← Int.ceil_neg, neg_neg]

/-- Round half to even of a rational to the nearest integer, the rounding
used by numpy and pandas round. -/
def roundHalfEven (q : ℚ) : ℤ :=
  let f := ratFloor q
  let r := q - (f : ℚ)
  if r < 1/2 then f
  else if 1/2 < r then f + 1
  else if f % 2 = 0 then f else f + 1

/-- Rounding to 2 decimal places, pandas round(2) on lines 106 and 115. -/
def roundTo2 (q : ℚ) : ℚ := ((roundHalfEven (q * 100) : ℤ) : ℚ) / 100

/-- A raw patient record as read from the source dataset. Passthrough
columns not touched by the transformation are omitted. -/
structure RawRow where
  patient_id : ℕ
  department : String
  dob : Option ℤ
  billing_amount : Option ℚ
deriving Repr, DecidableEq

/-- A derived patient record after the transform stage: the raw fields
plus the computed integer age, with dob replaced by its parse result. -/
structure CleanRow where
  patient_id : ℕ
  department : String
  dob : Option ℤ
  age : ℤ
  billing_amount : Option ℚ
deriving Repr, DecidableEq

/-- One row of the department summary produced on lines 110 to 115. -/
structure SummaryRow where
  department : String
  number_of_patients : ℕ
  total_revenue : ℚ
  average_billing : Option ℚ
deriving Repr, DecidableEq

/-- Age of a patient, lines 96 to 99 of run.py: the day difference between
the reference instant and the parsed dob (a floor, since pandas dt.days
takes the day component of the timedelta), divided by 365.25, cast to int
by truncation toward zero; a null or unparseable dob yields age 0 through
fillna(0). -/
def ageOf (today : ℚ) (dob : Option ℤ) : ℤ :=
  match dob with
  | none => 0
  | some d => ratTrunc ((ratFloor (today - (d : ℚ)) : ℤ) / (1461 / 4 : ℚ))

/-- Lines 96 to 100: add the age column to a raw row. -/
def addAge (today : ℚ) (r : RawRow) : CleanRow :=
  { patient_id := r.patient_id
    department := r.department
    dob := r.dob
    age := ageOf today r.dob
    billing_amount := r.billing_amount }

/-- Mean of a list of rationals, or none for the empty list; pandas mean
skips nulls and yields NaN on an all-null group. -/
def meanOpt : List ℚ → Option ℚ
  | [] => none
  | a :: as => some ((a :: as).sum / ((a :: as).length : ℚ))

/-- Non-null billing amounts of the rows of one department. -/
def deptBillings (rows : List CleanRow) (d : String) : List ℚ :=
  (rows.filter (fun r => r.department == d)).filterMap (fun r => r.billing_amount)

/-- Non-null billing amounts of the raw rows of one department. -/
def origBillings (rows : List RawRow) (d : String) : List ℚ :=
  (rows.filter (fun r => r.department == d)).filterMap (fun r => r.billing_amount)

/-- Lines 103 to 105, per row: fillna with the group mean taken over the
whole (pre-fill) column, the lambda inside the groupby transform. -/
def fillRow (rows : List CleanRow) (r : CleanRow) : CleanRow :=
  { r with billing_amount :=
      match r.billing_amount with
      | some b => some b
      | none => meanOpt (deptBillings rows r.department) }

/-- Lines 103 to 105: groupby department, transform fillna group mean.
The pandas transform aligns its result on the original index, so the
row order and count are preserved. -/
def imputeBilling (rows : List CleanRow) : List CleanRow :=
  rows.map (fillRow rows)

/-- Line 106, per row: round the billing cell to 2 decimals; NaN stays
NaN under pandas round, so none maps to none. -/
def roundRow (r : CleanRow) : CleanRow :=
  { r with billing_amount := r.billing_amount.map roundTo2 }

/-- Line 106: round the whole billing column. -/
def roundBillingCol (rows : List CleanRow) : List CleanRow :=
  rows.map roundRow

/-- Insertion of a string into a sorted list of strings. -/
def insertSorted (s : String) : List String → List String
  | [] => [s]
  | t :: ts => if s ≤ t then s :: t :: ts else t :: insertSorted s ts

/-- Insertion sort on strings. -/
def sortStrings : List String → List String
  | [] => []
  | s :: ss => insertSorted s (sortStrings ss)

/-- Distinct department keys in sorted order, matching the default
sort=true behavior of pandas groupby on line 110. -/
def deptKeys (rows : List CleanRow) : List String :=
  sortStrings ((rows.map (fun r => r.department)).dedup)

/-- Lines 110 to 115, one aggregated summary row for one department.
The count aggregation counts the non-null patient_id cells of the group;
patient_id is a non-nullable key in the data model, so this is the group
size. The sum aggregation skips nulls (an all-null group sums to 0), the
mean aggregation skips nulls and is NaN on an all-null group, and line
115 rounds the mean to 2 decimals. -/
def summaryFor (rows : List CleanRow) (d : String) : SummaryRow :=
  { department := d
    number_of_patients := (rows.filter (fun r => r.department == d)).length
    total_revenue :=
      ((rows.filter (fun r => r.department == d)).filterMap (fun r => r.billing_amount)).sum
    average_billing :=
      (meanOpt ((rows.filter (fun r => r.department == d)).filterMap
        (fun r => r.billing_amount))).map roundTo2 }

/-- Lines 110 to 115: the department summary dataset. -/
def departmentSummary (rows : List CleanRow) : List SummaryRow :=
  (deptKeys rows).map (summaryFor rows)

/-- Lines 92 to 119 on a present dataset: age enrichment, grouped billing
imputation, column rounding, aggregation. -/
def transformRows (today : ℚ) (rows : List RawRow) :
    List CleanRow × List SummaryRow :=
  let cleaned := roundBillingCol (imputeBilling (rows.map (addAge today)))
  (cleaned, departmentSummary cleaned)

/-- A raw tabular dataset: the column names present in the frame together
with its rows. Row fields are meaningful only for columns present in
cols; transform consults cols exactly where run.py would index a pandas
column and raise KeyError on a missing one. -/
structure RawFrame where
  cols : List String
  rows : List RawRow
deriving Repr, DecidableEq

/-- Result of the transform stage, line 119 and line 90 of run.py: the
two derived datasets (absent when the input dataset was absent) and the
console diagnostics printed along the way. -/
structure TransformOut where
  patients_clean : Option (List CleanRow)
  department_summary : Option (List SummaryRow)
  log : List String
deriving Repr, DecidableEq

/-- Lines 92 to 119 on a present frame. Pandas raises KeyError at the
first access of a missing column: dob on line 96, department then
billing_amount on line 103, patient_id on line 111; the error propagates
to the caller, so the result type is Except. -/
def transformFrame (today : ℚ) (f : RawFrame) :
    Except String (List CleanRow × List SummaryRow) :=
  if "dob" ∉ f.cols then Except.error "KeyError: dob"
  else if "department" ∉ f.cols then Except.error "KeyError: department"
  else if "billing_amount" ∉ f.cols then Except.error "KeyError: billing_amount"
  else if "patient_id" ∉ f.cols then Except.error "KeyError: patient_id"
  else Except.ok (transformRows today f.rows)

/-- Diagnostic printed on line 89 of run.py. -/
def skipMsg : String := "Transformation skipped as there is no data to transform."

/-- Lines 84 to 119: the full transform stage, including the None guard
of lines 88 to 90 which returns the pair [None, None]. -/
def transform (today : ℚ) (raw : Option RawFrame) : Except String TransformOut :=
  match raw with
  | none => Except.ok ⟨none, none, [skipMsg]⟩
  | some f =>
      (transformFrame today f).map fun p =>
        ⟨some p.1, some p.2, ["Starting data transformation..."]⟩

/-- Outcome of one attempted read of an external source: a frame, or a
failure with a message. The source branches of run.py catch every
exception (lines 57 to 60, 67 to 68, 78 to 79), so a failure is data,
never an uncaught raise; the two except branches of the local_csv case
differ only in the printed text and are modelled as one. -/
inductive FetchOutcome where
  | ok (f : RawFrame)
  | err (msg : String)
deriving Repr, DecidableEq

/-- The configuration keys of the config dict that the embedded code
reads. -/
structure Config where
  source : String
  local_patient_data_path : String
  patient_data_url : String
  api_url : String
  patients_csv_file : String
  processed_patients_file : String
  processed_department_summary_file : String
deriving Repr, DecidableEq

/-- The external world of one run: what each kind of read would return,
and the wall clock captured by datetime.now() on line 97. -/
structure Env where
  readCsvFile : String → FetchOutcome
  readCsvUrl : String → FetchOutcome
  apiGet : String → FetchOutcome
  now : ℚ

/-- Result of the extract stage: the optional dataset, the console
diagnostics, and the names of the source branches actually attempted. -/
structure ExtractResult where
  df : Option RawFrame
  log : List String
  attempts : List String
deriving Repr, DecidableEq

/-- Lines 46 to 81: extract the dataset for the configured source
selector; every failure is converted to an absent dataset plus a
diagnostic, and an unknown selector attempts no extraction. -/
def extract (cfg : Config) (env : Env) : ExtractResult :=
  let attemptMsg := "Attempting to extract data from source: " ++ cfg.source
  if cfg.source = "local_csv" then
    match env.readCsvFile cfg.local_patient_data_path with
    | FetchOutcome.ok f =>
        ⟨some f, [attemptMsg,
          "Successfully extracted patient data from local file: "
            ++ cfg.local_patient_data_path], ["local_csv"]⟩
    | FetchOutcome.err e =>
        ⟨none, [attemptMsg,
          "Error reading local file " ++ cfg.local_patient_data_path ++ ": " ++ e],
          ["local_csv"]⟩
  else if cfg.source = "csv" then
    match env.readCsvUrl cfg.patient_data_url with
    | FetchOutcome.ok f =>
        ⟨some f, [attemptMsg,
          "Successfully extracted patient data from CSV URL."], ["csv"]⟩
    | FetchOutcome.err e =>
        ⟨none, [attemptMsg,
          "Error extracting data from " ++ cfg.patient_data_url ++ ": " ++ e],
          ["csv"]⟩
  else if cfg.source = "api" then
    match env.apiGet cfg.api_url with
    | FetchOutcome.ok f =>
        ⟨some f, [attemptMsg,
          "Successfully extracted patient data from API: " ++ cfg.api_url], ["api"]⟩
    | FetchOutcome.err e =>
        ⟨none, [attemptMsg,
          "Error extracting data from API " ++ cfg.api_url ++ ": " ++ e], ["api"]⟩
  else ⟨none, [attemptMsg], []⟩

/-- The fetch outcome the configured selector would consult, or none for
an unknown selector. -/
def selectedOutcome (cfg : Config) (env : Env) : Option FetchOutcome :=
  if cfg.source = "local_csv" then some (env.readCsvFile cfg.local_patient_data_path)
  else if cfg.source = "csv" then some (env.readCsvUrl cfg.patient_data_url)
  else if cfg.source = "api" then some (env.apiGet cfg.api_url)
  else none

/-- An observable side effect of the orchestrator: directory setup, a
csv snapshot written to a path, a lake load, or a warehouse load. -/
inductive Event where
  | setup_dirs
  | write_csv (path : String)
  | load_lake
  | load_warehouse
deriving Repr, DecidableEq

/-- Result of one orchestrated run: the persistence effects in order and
the final status (an uncaught transform error aborts the run). -/
structure RunResult where
  events : List Event
  outcome : Except String Unit
deriving Repr

/-- Lines 162 to 186: the main orchestrator. Extraction yielding no data
halts the run after directory setup, before any snapshot or load; the
generic load helper of lines 152 to 159 re-checks the same presence
conditions that main checks on lines 168 and 180, so the guards
collapse. -/
def main (cfg : Config) (env : Env) : RunResult :=
  match (extract cfg env).df with
  | none => ⟨[Event.setup_dirs], Except.ok ()⟩
  | some f =>
      let pre := [Event.setup_dirs, Event.write_csv cfg.patients_csv_file,
        Event.load_lake]
      match transform env.now (some f) with
      | Except.error e => ⟨pre, Except.error e⟩
      | Except.ok out =>
          match out.patients_clean, out.department_summary with
          | some _, some _ =>
              ⟨pre ++ [Event.write_csv cfg.processed_patients_file,
                Event.write_csv cfg.processed_department_summary_file,
                Event.load_warehouse], Except.ok ()⟩
          | _, _ => ⟨pre, Except.ok ()⟩

/-- Serialization of an optional rational cell; a null cell serializes to
the empty field, as pandas to_csv writes NaN. -/
def cellQ : Option ℚ → String
  | none => ""
  | some q => toString q

/-- Serialization of an optional date cell. -/
def cellD : Option ℤ → String
  | none => ""
  | some d => toString d

/-- One serialized line of the derived patient dataset. -/
def cleanRowLine (r : CleanRow) : String :=
  toString r.patient_id ++ "," ++ r.department ++ "," ++ cellD r.dob ++ ","
    ++ toString r.age ++ "," ++ cellQ r.billing_amount

/-- Deterministic csv rendering of the derived patient dataset, the
snapshot written on line 181. -/
def cleanCsv (rows : List CleanRow) : String :=
  String.intercalate "\n"
    ("patient_id,department,dob,age,billing_amount" :: rows.map cleanRowLine)

/-- One serialized line of the department summary dataset. -/
def summaryRowLine (s : SummaryRow) : String :=
  s.department ++ "," ++ toString s.number_of_patients ++ ","
    ++ toString s.total_revenue ++ "," ++ cellQ s.average_billing

/-- Deterministic csv rendering of the department summary dataset, the
snapshot written on line 182. -/
def summaryCsv (rows : List SummaryRow) : String :=
  String.intercalate "\n"
    ("department,number_of_patients,total_revenue,average_billing"
      :: rows.map summaryRowLine)

/-! Sample data used by the closed witness and counterexample theorems.
Dates are days since the epoch 1970-01-01: day 10957 is 2000-01-01, day
7305 is 1990-01-01, and day 19723 is the reference instant 2024-01-01 of
the end to end example in section 8 of the spec. -/

def exRaw : List RawRow :=
  [⟨1, "ER", some 10957, some 100⟩,
   ⟨2, "ER", none, none⟩,
   ⟨3, "ICU", some 7305, none⟩]

def exRaw1 : List RawRow :=
  [⟨1, "ER", none, some 100⟩]

def exFuture : List RawRow :=
  [⟨1, "ER", some 400, some 100⟩]

def exClean : List CleanRow :=
  [⟨1, "ER", some 10957, 24, none⟩,
   ⟨2, "ER", none, 0, some 250⟩]

def cfgUnknown : Config :=
  ⟨"mongo", "./data/raw/patients_data.csv", "u", "a", "f1", "f2", "f3"⟩

def cfgLocal : Config :=
  ⟨"local_csv", "./data/raw/patients_data.csv", "u", "a", "f1", "f2", "f3"⟩

def envFail : Env :=
  ⟨fun _ => FetchOutcome.err "missing file",
   fun _ => FetchOutcome.err "network error",
   fun _ => FetchOutcome.err "bad response", 19723⟩

def fNoDob : RawFrame :=
  ⟨["department", "billing_amount", "patient_id"], []⟩

/-! Helper lemmas about the embedded operations. -/

@[simp]
theorem roundRow_age (r : CleanRow) : (roundRow r).age = r.age := rfl

@[simp]
theorem roundRow_department (r : CleanRow) : (roundRow r).department = r.department := rfl

@[simp]
theorem roundRow_dob (r : CleanRow) : (roundRow r).dob = r.dob := rfl

@[simp]
theorem roundRow_pid (r : CleanRow) : (roundRow r).patient_id = r.patient_id := rfl

@[simp]
theorem roundRow_billing (r : CleanRow) :
    (roundRow r).billing_amount = r.billing_amount.map roundTo2 := rfl

@[simp]
theorem fillRow_age (rows : List CleanRow) (r : CleanRow) :
    (fillRow rows r).age = r.age := rfl

@[simp]
theorem fillRow_department (rows : List CleanRow) (r : CleanRow) :
    (fillRow rows r).department = r.department := rfl

@[simp]
theorem fillRow_dob (rows : List CleanRow) (r : CleanRow) :
    (fillRow rows r).dob = r.dob := rfl

@[simp]
theorem fillRow_pid (rows : List CleanRow) (r : CleanRow) :
    (fillRow rows r).patient_id = r.patient_id := rfl

theorem fillRow_billing_some (rows : List CleanRow) (r : CleanRow) (b : ℚ)
    (h : r.billing_amount = some b) :
    (fillRow rows r).billing_amount = some b := by
  simp [fillRow, h]

theorem fillRow_billing_none (rows : List CleanRow) (r : CleanRow)
    (h : r.billing_amount = none) :
    (fillRow rows r).billing_amount = meanOpt (deptBillings rows r.department) := by
  simp [fillRow, h]

@[simp]
theorem addAge_age (today : ℚ) (r : RawRow) :
    (addAge today r).age = ageOf today r.dob := rfl

@[simp]
theorem addAge_dob (today : ℚ) (r : RawRow) :
    (addAge today r).dob = r.dob := rfl

@[simp]
theorem addAge_pid (today : ℚ) (r : RawRow) :
    (addAge today r).patient_id = r.patient_id := rfl

@[simp]
theorem addAge_department (today : ℚ) (r : RawRow) :
    (addAge today r).department = r.department := rfl

@[simp]
theorem addAge_billing (today : ℚ) (r : RawRow) :
    (addAge today r).billing_amount = r.billing_amount := rfl

@[simp]
theorem transformRows_fst_length (today : ℚ) (rows : List RawRow) :
    (transformRows today rows).1.length = rows.length := by
  simp [transformRows, roundBillingCol, imputeBilling]

theorem transformRows_get (today : ℚ) (rows : List RawRow) (i : ℕ)
    (hi : i < rows.length) (hj : i < (transformRows today rows).1.length) :
    (transformRows today rows).1.get ⟨i, hj⟩
      = roundRow (fillRow (rows.map (addAge today)) (addAge today (rows.get ⟨i, hi⟩))) := by
  simp [transformRows, roundBillingCol, imputeBilling, List.get_eq_getElem,
    List.getElem_map]

theorem deptBillings_map_addAge (today : ℚ) (rows : List RawRow) (d : String) :
    deptBillings (rows.map (addAge today)) d = origBillings rows d := by
  induction rows with
  | nil => rfl
  | cons r rs ih =>
      by_cases h : r.department = d
      · simp only [deptBillings, origBillings, List.map_cons, List.filter_cons,
          addAge_department, h, beq_self_eq_true, if_pos, List.filterMap_cons] at *
        cases hb : r.billing_amount with
        | none => simpa [addAge, hb] using ih
        | some b => simpa [addAge, hb] using ih
      · simp only [deptBillings, origBillings, List.map_cons, List.filter_cons,
          addAge_department] at *
        rw [if_neg (by simpa using h), if_neg (by simpa using h)]
        exact ih

theorem meanOpt_eq_some (l : List ℚ) (h : l ≠ []) :
    meanOpt l = some (l.sum / (l.length : ℚ)) := by
  cases l with
  | nil => exact absurd rfl h
  | cons a as => rfl

theorem origBillings_ne_nil (rows : List RawRow) (d : String)
    (h : ∃ r ∈ rows, r.department = d ∧ r.billing_amount ≠ none) :
    origBillings rows d ≠ [] := by
  obtain ⟨r, hr, hd, hb⟩ := h
  obtain ⟨b, hbv⟩ := Option.ne_none_iff_exists.mp hb
  have hmem : b ∈ origBillings rows d := by
    apply List.mem_filterMap.mpr
    refine ⟨r, ?_, hbv.symm⟩
    exact List.mem_filter.mpr ⟨hr, by simpa using hd⟩
  exact List.ne_nil_of_mem hmem

theorem origBillings_eq_nil (rows : List RawRow) (d : String)
    (h : ∀ r ∈ rows, r.department = d → r.billing_amount = none) :
    origBillings rows d = [] := by
  apply List.filterMap_eq_nil_iff.mpr
  intro r hr
  have := List.mem_filter.mp hr
  exact h r this.1 (by simpa using this.2)

theorem mem_insertSorted (a s : String) (l : List String) :
    a ∈ insertSorted s l ↔ a = s ∨ a ∈ l := by
  induction l with
  | nil => simp [insertSorted]
  | cons t ts ih =>
      by_cases h : s ≤ t
      · simp [insertSorted, h]
      · simp only [insertSorted, if_neg h, List.mem_cons, ih]
        tauto

theorem mem_sortStrings (a : String) (l : List String) :
    a ∈ sortStrings l ↔ a ∈ l := by
  induction l with
  | nil => simp [sortStrings]
  | cons s ss ih => simp [sortStrings, mem_insertSorted, ih]

theorem mem_deptKeys (rows : List CleanRow) (d : String) :
    d ∈ deptKeys rows ↔ ∃ r ∈ rows, r.department = d := by
  simp [deptKeys, mem_sortStrings, List.mem_dedup, List.mem_map]

theorem mem_departmentSummary (rows : List CleanRow) (s : SummaryRow) :
    s ∈ departmentSummary rows ↔ ∃ d ∈ deptKeys rows, s = summaryFor rows d := by
  simp only [departmentSummary, List.mem_map]
  constructor
  · rintro ⟨d, hd, rfl⟩
    exact ⟨d, hd, rfl⟩
  · rintro ⟨d, hd, rfl⟩
    exact ⟨d, hd, rfl⟩

@[simp]
theorem summaryFor_department (rows : List CleanRow) (d : String) :
    (summaryFor rows d).department = d := rfl

/-! Claim theorems. -/

/-- C1: after the transform stage, every department with at least one
non-null billing_amount has each of its originally null billing cells
filled with the arithmetic mean of the originally non-null values of the
department, rounded to 2 decimal places, the mean being computed from
pre-fill values only; every department whose billing cells are all null
keeps them null. -/
theorem c1_group_mean_imputation (today : ℚ) (rows : List RawRow) (d : String) :
    (∀ (i : ℕ) (hi : i < rows.length) (hj : i < (transformRows today rows).1.length),
      (∃ r ∈ rows, r.department = d ∧ r.billing_amount ≠ none) →
      (rows.get ⟨i, hi⟩).department = d →
      (rows.get ⟨i, hi⟩).billing_amount = none →
      ((transformRows today rows).1.get ⟨i, hj⟩).billing_amount
        = some (roundTo2 ((origBillings rows d).sum / ((origBillings rows d).length : ℚ))))
    ∧ (∀ (i : ℕ) (hi : i < rows.length) (hj : i < (transformRows today rows).1.length),
      (∀ r ∈ rows, r.department = d → r.billing_amount = none) →
      (rows.get ⟨i, hi⟩).department = d →
      ((transformRows today rows).1.get ⟨i, hj⟩).billing_amount = none) := by
  constructor
  · intro i hi hj hex hdep hnull
    rw [transformRows_get today rows i hi hj]
    have hb : (addAge today (rows.get ⟨i, hi⟩)).billing_amount = none := by
      simpa using hnull
    have hfill : (fillRow (rows.map (addAge today))
        (addAge today (rows.get ⟨i, hi⟩))).billing_amount
        = meanOpt (origBillings rows d) := by
      rw [fillRow_billing_none _ _ hb, addAge_department, hdep, deptBillings_map_addAge]
    have hmean := meanOpt_eq_some _ (origBillings_ne_nil rows d hex)
    rw [roundRow_billing, hfill, hmean]
    rfl
  · intro i hi hj hall hdep
    rw [transformRows_get today rows i hi hj]
    have hnull : (rows.get ⟨i, hi⟩).billing_amount = none :=
      hall _ (List.get_mem rows i hi) hdep
    have hb : (addAge today (rows.get ⟨i, hi⟩)).billing_amount = none := by
      simpa using hnull
    rw [roundRow_billing, fillRow_billing_none _ _ hb, addAge_department, hdep,
      deptBillings_map_addAge, origBillings_eq_nil rows d hall]
    rfl

/-- Closed instance of c1_group_mean_imputation: both halves on the
sample dataset, the ER row with null billing and the all-null ICU
department. -/
theorem c1_witness :
    (∃ r ∈ exRaw, r.department = "ER" ∧ r.billing_amount ≠ none)
    ∧ ((transformRows 19723 exRaw).1.get ⟨1, by simp [exRaw]⟩).billing_amount
        = some (roundTo2 ((origBillings exRaw "ER").sum
            / ((origBillings exRaw "ER").length : ℚ)))
    ∧ (∀ r ∈ exRaw, r.department = "ICU" → r.billing_amount = none)
    ∧ ((transformRows 19723 exRaw).1.get ⟨2, by simp [exRaw]⟩).billing_amount = none := by
  refine ⟨?_, ?_, ?_, ?_⟩
  · exact ⟨⟨1, "ER", some 10957, some 100⟩, by simp [exRaw], rfl, by simp⟩
  · exact (c1_group_mean_imputation 19723 exRaw "ER").1 1 (by simp [exRaw])
      (by simp [exRaw])
      ⟨⟨1, "ER", some 10957, some 100⟩, by simp [exRaw], rfl, by simp⟩ rfl rfl
  · intro r hr hd
    fin_cases hr <;> simp_all [exRaw]
  · exact (c1_group_mean_imputation 19723 exRaw "ICU").2 2 (by simp [exRaw])
      (by simp [exRaw])
      (by intro r hr hd
          fin_cases hr <;> simp_all [exRaw]) rfl

/-- C2 (amended): every derived row's age is computed against the single
reference instant of the run; a row with a null or unparseable dob gets
age 0 exactly; a row with a valid dob gets the truncation toward zero of
the day difference divided by 365.25, which agrees with the floor stated
by the claim whenever the dob does not lie after the reference
instant. -/
theorem c2_age_amended (today : ℚ) (rows : List RawRow) (i : ℕ)
    (hi : i < rows.length) (hj : i < (transformRows today rows).1.length) :
    ((transformRows today rows).1.get ⟨i, hj⟩).age
      = ageOf today (rows.get ⟨i, hi⟩).dob
    ∧ ((rows.get ⟨i, hi⟩).dob = none →
        ((transformRows today rows).1.get ⟨i, hj⟩).age = 0)
    ∧ (∀ d : ℤ, (rows.get ⟨i, hi⟩).dob = some d → (d : ℚ) ≤ today →
        ((transformRows today rows).1.get ⟨i, hj⟩).age
          = ratFloor ((ratFloor (today - (d : ℚ)) : ℤ) / (1461 / 4 : ℚ))) := by
  have hage : ((transformRows today rows).1.get ⟨i, hj⟩).age
      = ageOf today (rows.get ⟨i, hi⟩).dob := by
    rw [transformRows_get today rows i hi hj]
    simp
  refine ⟨hage, ?_, ?_⟩
  · intro hd
    rw [hage, hd]
    rfl
  · intro d hd hle
    rw [hage, hd]
    show ratTrunc ((ratFloor (today - (d : ℚ)) : ℤ) / (1461 / 4 : ℚ)) = _
    have hnum : (0 : ℚ) ≤ ((ratFloor (today - (d : ℚ)) : ℤ) : ℚ) := by
      rw [ratFloor_eq_floor]
      exact_mod_cast Int.floor_nonneg.mpr (by linarith)
    have hq : (0 : ℚ) ≤ ((ratFloor (today - (d : ℚ)) : ℤ) : ℚ) / (1461 / 4 : ℚ) :=
      div_nonneg hnum (by norm_num)
    rw [ratTrunc_eq, if_pos hq]
    simp [ratFloor_eq_floor]

/-- Disproof of C2 as stated: for a dob lying 400 days after the
reference instant, the code yields age -1 (truncation toward zero) while
the floor of the claim is -2. -/
theorem c2_counterexample :
    ((transformRows 0 exFuture).1.head?.map CleanRow.age) = some (-1)
    ∧ ratFloor ((ratFloor ((0 : ℚ) - ((400 : ℤ) : ℚ)) : ℤ) / (1461 / 4 : ℚ)) = -2
    ∧ (some (-1 : ℤ) ≠ some (-2 : ℤ)) := by
  have e1 : ratFloor ((0 : ℚ) - ((400 : ℤ) : ℚ)) = -400 := by
    rw [ratFloor_eq_floor]
    norm_num
  have hage : ageOf 0 (some 400) = -1 := by
    show ratTrunc ((ratFloor ((0 : ℚ) - ((400 : ℤ) : ℚ)) : ℤ) / (1461 / 4 : ℚ)) = -1
    rw [e1, ratTrunc_eq, if_neg (by norm_num)]
    have e2 : (((-400 : ℤ) : ℚ) / (1461 / 4 : ℚ)) = -((1600 : ℚ) / 1461) := by
      norm_num
    rw [e2, Int.ceil_neg]
    norm_num
  refine ⟨?_, ?_, by simp⟩
  · simp [transformRows, roundBillingCol, imputeBilling, exFuture, hage]
  · rw [e1, ratFloor_eq_floor]
    have e3 : (((-400 : ℤ) : ℚ) / (1461 / 4 : ℚ)) = -((1600 : ℚ) / 1461) := by
      norm_num
    rw [e3]
    norm_num

/-- Closed instance of c2_age_amended at rows 0 and 1 of the sample
dataset: a valid past dob 2000-01-01 against the reference instant
2024-01-01, and a null dob. -/
theorem c2_witness :
    ((transformRows 19723 exRaw).1.get ⟨0, by simp [exRaw]⟩).age
      = ageOf 19723 (exRaw.get ⟨0, by simp [exRaw]⟩).dob
    ∧ (∀ d : ℤ, (exRaw.get ⟨0, by simp [exRaw]⟩).dob = some d → (d : ℚ) ≤ 19723 →
        ((transformRows 19723 exRaw).1.get ⟨0, by simp [exRaw]⟩).age
          = ratFloor ((ratFloor ((19723 : ℚ) - (d : ℚ)) : ℤ) / (1461 / 4 : ℚ)))
    ∧ ((exRaw.get ⟨1, by simp [exRaw]⟩).dob = none →
        ((transformRows 19723 exRaw).1.get ⟨1, by simp [exRaw]⟩).age = 0) :=
  ⟨(c2_age_amended 19723 exRaw 0 (by simp [exRaw]) (by simp [exRaw])).1,
   (c2_age_amended 19723 exRaw 0 (by simp [exRaw]) (by simp [exRaw])).2.2,
   (c2_age_amended 19723 exRaw 1 (by simp [exRaw]) (by simp [exRaw])).2.1⟩

/-- C3: in the department summary, every row's total_revenue is the sum
of the post imputation billing values of its department with nulls
contributing zero, and its average_billing is the mean of the non-null
post imputation values of the department rounded to 2 decimals. -/
theorem c3_summary_financials (today : ℚ) (rows : List RawRow) :
    ∀ srow ∈ (transformRows today rows).2,
      srow.total_revenue
        = (((transformRows today rows).1.filter
            (fun r => r.department == srow.department)).filterMap
            (fun r => r.billing_amount)).sum
      ∧ srow.average_billing
        = (meanOpt (((transformRows today rows).1.filter
            (fun r => r.department == srow.department)).filterMap
            (fun r => r.billing_amount))).map roundTo2 := by
  intro srow hs
  have h2 : (transformRows today rows).2
      = departmentSummary (transformRows today rows).1 := rfl
  rw [h2] at hs
  obtain ⟨d, hd, rfl⟩ := (mem_departmentSummary _ _).mp hs
  exact ⟨by simp [summaryFor], by simp [summaryFor]⟩

/-- Closed instance of c3_summary_financials on the one department
summary of a singleton dataset. -/
theorem c3_witness :
    summaryFor (transformRows 0 exRaw1).1 "ER" ∈ (transformRows 0 exRaw1).2
    ∧ ((summaryFor (transformRows 0 exRaw1).1 "ER").total_revenue
        = (((transformRows 0 exRaw1).1.filter
            (fun r => r.department
              == (summaryFor (transformRows 0 exRaw1).1 "ER").department)).filterMap
            (fun r => r.billing_amount)).sum
      ∧ (summaryFor (transformRows 0 exRaw1).1 "ER").average_billing
        = (meanOpt (((transformRows 0 exRaw1).1.filter
            (fun r => r.department
              == (summaryFor (transformRows 0 exRaw1).1 "ER").department)).filterMap
            (fun r => r.billing_amount))).map roundTo2) := by
  have hmem : summaryFor (transformRows 0 exRaw1).1 "ER" ∈ (transformRows 0 exRaw1).2 := by
    have h2 : (transformRows 0 exRaw1).2
        = departmentSummary (transformRows 0 exRaw1).1 := rfl
    rw [h2]
    apply (mem_departmentSummary _ _).mpr
    refine ⟨"ER", (mem_deptKeys _ _).mpr ?_, rfl⟩
    simp [transformRows, roundBillingCol, imputeBilling, exRaw1]
  exact ⟨hmem, c3_summary_financials 0 exRaw1 _ hmem⟩

/-- C4: every department value present in the derived dataset has a
summary row whose number_of_patients is the number of derived rows of
that department, irrespective of whether their billing is null. -/
theorem c4_patient_count (today : ℚ) (rows : List RawRow) (d : String)
    (h : ∃ r ∈ (transformRows today rows).1, r.department = d) :
    ∃ srow ∈ (transformRows today rows).2,
      srow.department = d
      ∧ srow.number_of_patients
          = ((transformRows today rows).1.filter
              (fun r => r.department == d)).length := by
  refine ⟨summaryFor (transformRows today rows).1 d, ?_, rfl, rfl⟩
  have h2 : (transformRows today rows).2
      = departmentSummary (transformRows today rows).1 := rfl
  rw [h2]
  exact (mem_departmentSummary _ _).mpr ⟨d, (mem_deptKeys _ _).mpr h, rfl⟩

/-- Closed instance of c4_patient_count on the singleton dataset. -/
theorem c4_witness :
    (∃ r ∈ (transformRows 0 exRaw1).1, r.department = "ER")
    ∧ ∃ srow ∈ (transformRows 0 exRaw1).2,
        srow.department = "ER"
        ∧ srow.number_of_patients
            = ((transformRows 0 exRaw1).1.filter
                (fun r => r.department == "ER")).length := by
  have h : ∃ r ∈ (transformRows 0 exRaw1).1, r.department = "ER" := by
    simp [transformRows, roundBillingCol, imputeBilling, exRaw1]
  exact ⟨h, c4_patient_count 0 exRaw1 "ER" h⟩

/-- C5: the grouped billing imputation step (lines 102 to 106) changes
only the billing_amount values: it preserves the row count, the row
order and every row's patient_id, department, dob and age relative to
the dataset it receives. -/
theorem c5_impute_frame (rows : List CleanRow) :
    (roundBillingCol (imputeBilling rows)).length = rows.length
    ∧ ∀ (i : ℕ) (hi : i < rows.length)
        (hj : i < (roundBillingCol (imputeBilling rows)).length),
        ((roundBillingCol (imputeBilling rows)).get ⟨i, hj⟩).patient_id
            = (rows.get ⟨i, hi⟩).patient_id
        ∧ ((roundBillingCol (imputeBilling rows)).get ⟨i, hj⟩).department
            = (rows.get ⟨i, hi⟩).department
        ∧ ((roundBillingCol (imputeBilling rows)).get ⟨i, hj⟩).dob
            = (rows.get ⟨i, hi⟩).dob
        ∧ ((roundBillingCol (imputeBilling rows)).get ⟨i, hj⟩).age
            = (rows.get ⟨i, hi⟩).age := by
  refine ⟨by simp [roundBillingCol, imputeBilling], ?_⟩
  intro i hi hj
  simp [roundBillingCol, imputeBilling, List.get_eq_getElem, List.getElem_map]

/-- Closed instance of c5_impute_frame on a two row dataset. -/
theorem c5_witness :
    (roundBillingCol (imputeBilling exClean)).length = exClean.length
    ∧ (((roundBillingCol (imputeBilling exClean)).get ⟨0, by simp [roundBillingCol, imputeBilling, exClean]⟩).patient_id
          = (exClean.get ⟨0, by simp [exClean]⟩).patient_id
       ∧ ((roundBillingCol (imputeBilling exClean)).get ⟨0, by simp [roundBillingCol, imputeBilling, exClean]⟩).department
          = (exClean.get ⟨0, by simp [exClean]⟩).department
       ∧ ((roundBillingCol (imputeBilling exClean)).get ⟨0, by simp [roundBillingCol, imputeBilling, exClean]⟩).dob
          = (exClean.get ⟨0, by simp [exClean]⟩).dob
       ∧ ((roundBillingCol (imputeBilling exClean)).get ⟨0, by simp [roundBillingCol, imputeBilling, exClean]⟩).age
          = (exClean.get ⟨0, by simp [exClean]⟩).age) :=
  ⟨(c5_impute_frame exClean).1,
   (c5_impute_frame exClean).2 0 (by simp [exClean]) (by simp [roundBillingCol, imputeBilling, exClean])⟩

/-- C6: for every dataset lacking at least one of the required columns
dob, billing_amount, department, patient_id, the transform stage fails
with an error that propagates to the caller, and no partially transformed
result is returned. -/
theorem c6_missing_column_errors (today : ℚ) (f : RawFrame)
    (h : "dob" ∉ f.cols ∨ "department" ∉ f.cols ∨ "billing_amount" ∉ f.cols
      ∨ "patient_id" ∉ f.cols) :
    (∃ msg, transformFrame today f = Except.error msg)
    ∧ ∃ msg, transform today (some f) = Except.error msg := by
  have h1 : ∃ msg, transformFrame today f = Except.error msg := by
    unfold transformFrame
    split_ifs <;> first | exact ⟨_, rfl⟩ | tauto
  obtain ⟨m, hm⟩ := h1
  refine ⟨⟨m, hm⟩, ⟨m, ?_⟩⟩
  have h2 : transform today (some f)
      = (transformFrame today f).map fun p =>
          ⟨some p.1, some p.2, ["Starting data transformation..."]⟩ := rfl
  rw [h2, hm]
  rfl

/-- Closed instance of c6_missing_column_errors on a frame without a dob
column. -/
theorem c6_witness :
    ("dob" ∉ fNoDob.cols ∨ "department" ∉ fNoDob.cols
      ∨ "billing_amount" ∉ fNoDob.cols ∨ "patient_id" ∉ fNoDob.cols)
    ∧ ((∃ msg, transformFrame 0 fNoDob = Except.error msg)
       ∧ ∃ msg, transform 0 (some fNoDob) = Except.error msg) :=
  ⟨Or.inl (by simp [fNoDob]),
   c6_missing_column_errors 0 fNoDob (Or.inl (by simp [fNoDob]))⟩

/-- C7: the extractor never raises to its caller: a failing fetch for the
selected source yields an absent dataset together with a diagnostic
message, and an unknown source selector attempts no extraction and leaves
the dataset absent. -/
theorem c7_extract_total (cfg : Config) (env : Env) :
    (∀ m, selectedOutcome cfg env = some (FetchOutcome.err m) →
      (extract cfg env).df = none ∧ (extract cfg env).log ≠ [])
    ∧ (selectedOutcome cfg env = none →
      (extract cfg env).df = none ∧ (extract cfg env).attempts = []) := by
  constructor
  · intro m hm
    unfold extract
    unfold selectedOutcome at hm
    split_ifs at hm ⊢
    all_goals first
      | (cases hv : env.readCsvFile cfg.local_patient_data_path <;>
          rw [hv] at hm ⊢ <;> simp_all)
      | (cases hv : env.readCsvUrl cfg.patient_data_url <;>
          rw [hv] at hm ⊢ <;> simp_all)
      | (cases hv : env.apiGet cfg.api_url <;>
          rw [hv] at hm ⊢ <;> simp_all)
      | simp_all
  · intro hn
    unfold extract
    unfold selectedOutcome at hn
    split_ifs at hn ⊢ <;> simp_all

/-- Closed instance of c7_extract_total: a local file read failure gives
no data plus a diagnostic, and an unknown selector attempts nothing. -/
theorem c7_witness :
    (selectedOutcome cfgLocal envFail = some (FetchOutcome.err "missing file")
      → (extract cfgLocal envFail).df = none ∧ (extract cfgLocal envFail).log ≠ [])
    ∧ (selectedOutcome cfgUnknown envFail = none
      → (extract cfgUnknown envFail).df = none
        ∧ (extract cfgUnknown envFail).attempts = []) :=
  ⟨(c7_extract_total cfgLocal envFail).1 "missing file",
   (c7_extract_total cfgUnknown envFail).2⟩

/-- C8: a run whose extraction yields no data halts before any
persistence action: the event trace is directory setup alone, with no csv
snapshot, no lake load and no warehouse load. -/
theorem c8_no_data_halts (cfg : Config) (env : Env)
    (h : (extract cfg env).df = none) :
    (main cfg env).events = [Event.setup_dirs]
    ∧ (∀ p, Event.write_csv p ∉ (main cfg env).events)
    ∧ Event.load_lake ∉ (main cfg env).events
    ∧ Event.load_warehouse ∉ (main cfg env).events := by
  have hm : main cfg env = ⟨[Event.setup_dirs], Except.ok ()⟩ := by
    unfold main
    rw [h]
  rw [hm]
  refine ⟨rfl, ?_, ?_, ?_⟩ <;> simp

/-- Closed instance of c8_no_data_halts on a failing local read. -/
theorem c8_witness :
    (extract cfgLocal envFail).df = none
    ∧ ((main cfgLocal envFail).events = [Event.setup_dirs]
       ∧ (∀ p, Event.write_csv p ∉ (main cfgLocal envFail).events)
       ∧ Event.load_lake ∉ (main cfgLocal envFail).events
       ∧ Event.load_warehouse ∉ (main cfgLocal envFail).events) :=
  ⟨by simp [extract, cfgLocal, envFail],
   c8_no_data_halts cfgLocal envFail (by simp [extract, cfgLocal, envFail])⟩

/-- C9: the transform stage is a deterministic function of the raw input
and the reference instant: two runs on identical raw input with the
reference instant unchanged produce byte identical serialized derived
datasets. -/
theorem c9_deterministic (t1 t2 : ℚ) (r1 r2 : List RawRow)
    (ht : t1 = t2) (hr : r1 = r2) :
    cleanCsv (transformRows t1 r1).1 = cleanCsv (transformRows t2 r2).1
    ∧ summaryCsv (transformRows t1 r1).2 = summaryCsv (transformRows t2 r2).2 := by
  subst ht
  subst hr
  exact ⟨rfl, rfl⟩

/-- Closed instance of c9_deterministic on the sample dataset. -/
theorem c9_witness :
    (19723 : ℚ) = 19723 ∧ exRaw = exRaw
    ∧ (cleanCsv (transformRows 19723 exRaw).1 = cleanCsv (transformRows 19723 exRaw).1
       ∧ summaryCsv (transformRows 19723 exRaw).2
          = summaryCsv (transformRows 19723 exRaw).2) :=
  ⟨rfl, rfl, c9_deterministic 19723 19723 exRaw exRaw rfl rfl⟩

/-- C10: invoking the transform stage with an absent dataset does not
raise: it returns the pair of absent results together with the skip
diagnostic, and nothing else happens. -/
theorem c10_transform_none (today : ℚ) :
    transform today none = Except.ok ⟨none, none, [skipMsg]⟩ := rfl

end PatientETL
